import Mathlib

/-!
Verification of the analytics core of `src/AirCraft/app.py`.

The program is a single-file Streamlit dashboard.  Its analytics core —
the sidebar filter section, the three aggregations, the min-max
maintenance-risk score and the pilot-scheduling decision rule — is
embedded here shallowly:

* a pandas `DataFrame` row becomes a `FlightRecord`; float columns become
  `ℚ`; nullable columns (`flight_date`, and the categorical merge/filter
  keys `aircraft_id`, `pilot_id`, `weather_condition`) become `Option`s,
  with `none` playing the role of `NaN`/`NaT`;
* each vectorised pandas operation becomes the corresponding list
  transformation, keeping pandas' `NaN` semantics explicit: a `NaT`
  date fails both inclusive range comparisons, `Series.isin` never
  matches a null, `groupby` drops null keys, a left merge leaves an
  unmatched row with a null `risk_score`, and `NaN >= c` is `False`;
* `numpy`/pandas `round` is round-half-to-even, embedded exactly on `ℚ`.

Column-presence guards of the module top level (`if {...}.issubset
(df.columns)`) are modelled separately as Boolean functions of the list
of column names actually loaded.
-/

/-- One row of the loaded CSV (`df`), after `flight_date` has been parsed
with `errors="coerce"` (unparseable dates become null).  Fields that the
app filters, groups or merges on and that pandas may hold as `NaN` are
`Option`-valued; `none` is pandas' missing value. -/
structure FlightRecord where
  flight_date : Option ℕ
  aircraft_id : Option String
  pilot_id : Option String
  weather_condition : Option String
  flight_status : String
  flight_hours : ℚ
  maintenance_flag : ℚ
  downtime_days : ℚ
  pilot_duty_status : String
  time_of_day : String
deriving DecidableEq, Inhabited

/-! ## Filter section (app.py lines 126-153) -/

/-- `(df["flight_date"].dt.date >= start) & (df["flight_date"].dt.date <= end)`:
a `NaT` date fails both comparisons, so a null-dated record is excluded
whenever the date filter is active. -/
def dateOk (s e : ℕ) (r : FlightRecord) : Bool :=
  match r.flight_date with
  | some d => decide (s ≤ d) && decide (d ≤ e)
  | none => false

/-- The date filter is applied only when the column holds at least one
non-null date (`df["flight_date"].notna().any()`); otherwise the sidebar
widget (and the filter) is skipped. -/
def applyDateFilter (s e : ℕ) (l : List FlightRecord) : List FlightRecord :=
  if l.any (fun r => r.flight_date.isSome) then l.filter (dateOk s e) else l

/-- `Series.isin(selected)` on a nullable string column: `NaN` is never a
member of the selection list. -/
def inSel (sel : List String) (v : Option String) : Bool :=
  match v with
  | some a => sel.contains a
  | none => false

/-- `df = df[df["aircraft_id"].isin(selected_aircraft)]`. -/
def applyAircraftFilter (sel : List String) (l : List FlightRecord) : List FlightRecord :=
  l.filter (fun r => inSel sel r.aircraft_id)

/-- `df = df[df["pilot_id"].isin(selected_pilots)]`. -/
def applyPilotFilter (sel : List String) (l : List FlightRecord) : List FlightRecord :=
  l.filter (fun r => inSel sel r.pilot_id)

/-- `df = df[df["weather_condition"].isin(selected_weather)]`. -/
def applyWeatherFilter (sel : List String) (l : List FlightRecord) : List FlightRecord :=
  l.filter (fun r => inSel sel r.weather_condition)

/-- The whole filter section for a fixed selection: date range first, then
aircraft, pilot and weather multiselects, exactly in source order. -/
def applyFilters (s e : ℕ) (A P W : List String) (l : List FlightRecord) :
    List FlightRecord :=
  applyWeatherFilter W (applyPilotFilter P (applyAircraftFilter A (applyDateFilter s e l)))

/-- The option list of a multiselect: `sorted(df[col].dropna().unique())`.
The source sorts the choices for display; only membership in the list
matters to the filter, so the de-duplicated first-occurrence order is
used here. -/
def defaultChoices (f : FlightRecord → Option String) (l : List FlightRecord) :
    List String :=
  (l.filterMap f).dedup

/-- The non-null dates observed in the loaded data. -/
def observedDates (l : List FlightRecord) : List ℕ :=
  l.filterMap (fun r => r.flight_date)

/-- `df["flight_date"].min().date()` over the non-null dates (the value is
only ever used when at least one non-null date exists). -/
def minDate (l : List FlightRecord) : ℕ :=
  match observedDates l with
  | [] => 0
  | d :: ds => ds.foldl min d

/-- `df["flight_date"].max().date()` over the non-null dates. -/
def maxDate (l : List FlightRecord) : ℕ :=
  match observedDates l with
  | [] => 0
  | d :: ds => ds.foldl max d

/-- The filter section run with every widget left at its default: the date
interval spans the full observed range and every multiselect keeps its
full default option list (which is recomputed from the data as it stands
when the widget is built, i.e. sequentially). -/
def fullDefaultFiltered (l : List FlightRecord) : List FlightRecord :=
  let l1 := applyDateFilter (minDate l) (maxDate l) l
  let l2 := applyAircraftFilter (defaultChoices (fun r => r.aircraft_id) l1) l1
  let l3 := applyPilotFilter (defaultChoices (fun r => r.pilot_id) l2) l2
  applyWeatherFilter (defaultChoices (fun r => r.weather_condition) l3) l3

/-! ## Rounding (numpy / pandas `round`: round half to even) -/

/-- Round a rational to the nearest integer, ties to the even integer —
the rounding used by `numpy`, hence by `Series.round`. -/
def roundHalfEven (q : ℚ) : ℤ :=
  if Int.fract q < 1/2 then ⌊q⌋
  else if 1/2 < Int.fract q then ⌊q⌋ + 1
  else if ⌊q⌋ % 2 = 0 then ⌊q⌋ else ⌊q⌋ + 1

/-- `Series.round(1)`. -/
def round1 (q : ℚ) : ℚ := (roundHalfEven (10 * q) : ℚ) / 10

/-- `Series.round(2)`. -/
def round2 (q : ℚ) : ℚ := (roundHalfEven (100 * q) : ℚ) / 100

/-! ## Aggregator (app.py lines 170-252) -/

/-- `df.groupby(col)` group keys for a nullable string column: the distinct
non-null values (pandas drops null group keys).  pandas emits the keys
sorted; key order affects none of the properties below (the risk table is
re-sorted by score afterwards, and lookups go by key), so the
de-duplicated order is used. -/
def groupKeys (f : FlightRecord → Option String) (l : List FlightRecord) : List String :=
  (l.filterMap f).dedup

/-- `df.groupby("aircraft_id")["flight_hours"].sum()` sorted descending:
the Aircraft Usage table. -/
def usage_aircraft (l : List FlightRecord) : List (String × ℚ) :=
  List.mergeSort
    ((groupKeys (fun r => r.aircraft_id) l).map
      (fun a => (a, ((l.filter (fun r => r.aircraft_id == some a)).map
        (fun r => r.flight_hours)).sum)))
    (fun x y => decide (y.2 ≤ x.2))

/-- `df.groupby("time_of_day")["flight_hours"].sum()` sorted descending:
the Training Peak Times table (`time_of_day` is a plain string column). -/
def usage_time (l : List FlightRecord) : List (String × ℚ) :=
  List.mergeSort
    (((l.map (fun r => r.time_of_day)).dedup).map
      (fun t => (t, ((l.filter (fun r => r.time_of_day == t)).map
        (fun r => r.flight_hours)).sum)))
    (fun x y => decide (y.2 ≤ x.2))

/-- `df.groupby(["weather_condition","flight_status"]).size()`: one row per
distinct (weather, status) pair actually present (rows whose weather is
null are dropped by the groupby), with the number of matching records. -/
def weather_status (l : List FlightRecord) : List (String × String × ℕ) :=
  ((l.filterMap (fun r => r.weather_condition.map (fun w => (w, r.flight_status)))).dedup).map
    (fun p => (p.1, p.2,
      (l.filter (fun r => r.weather_condition == some p.1 && r.flight_status == p.2)).length))

/-- `weather_pct.groupby("weather_condition")["count"].transform("sum")`:
the total count of a weather condition, summed over the rows of the
cross-tabulation that carry it. -/
def weatherTotal (t : List (String × String × ℕ)) (w : String) : ℕ :=
  ((t.filter (fun row => row.1 == w)).map (fun row => row.2.2)).sum

/-- The percent column: each count divided by its weather condition's
total, times 100, rounded to one decimal. -/
def weather_pct (l : List FlightRecord) : List (String × String × ℕ × ℚ) :=
  let t := weather_status l
  t.map (fun row =>
    (row.1, row.2.1, row.2.2,
      round1 ((row.2.2 : ℚ) / (weatherTotal t row.1) * 100)))

/-! ## Risk Scorer (app.py lines 261-301) -/

/-- One row of the grouped frame `df.groupby("aircraft_id").agg(...)`. -/
structure RiskAgg where
  aircraft_id : String
  total_flight_hours : ℚ
  maintenance_events : ℚ
  avg_downtime_days : ℚ
deriving DecidableEq, Inhabited

/-- The distinct non-null aircraft ids (the groupby keys). -/
def aircraftKeys (l : List FlightRecord) : List String :=
  (l.filterMap (fun r => r.aircraft_id)).dedup

/-- The records of one aircraft's group. -/
def groupRows (l : List FlightRecord) (a : String) : List FlightRecord :=
  l.filter (fun r => r.aircraft_id == some a)

/-- The per-aircraft aggregates: sum of hours, sum of maintenance flags,
mean of downtime days (each group is non-empty, so the mean's denominator
is positive). -/
def aggFor (l : List FlightRecord) (a : String) : RiskAgg :=
  let rows := groupRows l a
  { aircraft_id := a
    total_flight_hours := (rows.map (fun r => r.flight_hours)).sum
    maintenance_events := (rows.map (fun r => r.maintenance_flag)).sum
    avg_downtime_days := (rows.map (fun r => r.downtime_days)).sum / rows.length }

/-- `risk_df` before the score column: one aggregate row per aircraft. -/
def riskAggs (l : List FlightRecord) : List RiskAgg :=
  (aircraftKeys l).map (aggFor l)

/-- `s.max()` of a series: fold of `max` over a non-empty list (the value
at `[]` is never used: on an empty series pandas yields `NaN`). -/
def seriesMax : List ℚ → ℚ
  | [] => 0
  | x :: xs => xs.foldl max x

/-- `s.min()` of a series. -/
def seriesMin : List ℚ → ℚ
  | [] => 0
  | x :: xs => xs.foldl min x

/-- `minmax_series` of the source: all zeros when `s.max() == s.min()`,
else `(s - s.min()) / (s.max() - s.min())`.  The `s ≠ []` conjunct
encodes that on an empty series both `max` and `min` are `NaN` and
`NaN == NaN` is `False`; both branches send an empty series to an empty
series, so this changes no value. -/
def minmax_series (s : List ℚ) : List ℚ :=
  if seriesMax s = seriesMin s ∧ s ≠ [] then List.replicate s.length 0
  else s.map (fun v => (v - seriesMin s) / (seriesMax s - seriesMin s))

/-- The normalized flight-hours component, one value per aircraft row. -/
def hoursNorm (l : List FlightRecord) : List ℚ :=
  minmax_series ((riskAggs l).map RiskAgg.total_flight_hours)

/-- The normalized maintenance-events component. -/
def maintNorm (l : List FlightRecord) : List ℚ :=
  minmax_series ((riskAggs l).map RiskAgg.maintenance_events)

/-- The normalized average-downtime component. -/
def downNorm (l : List FlightRecord) : List ℚ :=
  minmax_series ((riskAggs l).map RiskAgg.avg_downtime_days)

/-- One row of `risk_df` with its score column. -/
structure RiskEntry where
  aircraft_id : String
  total_flight_hours : ℚ
  maintenance_events : ℚ
  avg_downtime_days : ℚ
  risk_score : ℚ
deriving DecidableEq, Inhabited

/-- `risk_df["risk_score"] = (0.5*h + 0.3*m + 0.2*d).round(2)`, row by
row, before the final sort. -/
def riskTableRaw (l : List FlightRecord) : List RiskEntry :=
  (List.range (riskAggs l).length).map (fun i =>
    let a := (riskAggs l).getD i default
    { aircraft_id := a.aircraft_id
      total_flight_hours := a.total_flight_hours
      maintenance_events := a.maintenance_events
      avg_downtime_days := a.avg_downtime_days
      risk_score := round2 (0.5 * (hoursNorm l).getD i 0 + 0.3 * (maintNorm l).getD i 0 +
        0.2 * (downNorm l).getD i 0) })

/-- `risk_df = risk_df.sort_values("risk_score", ascending=False)`. -/
def riskTable (l : List FlightRecord) : List RiskEntry :=
  List.mergeSort (riskTableRaw l) (fun x y => decide (y.risk_score ≤ x.risk_score))

/-! ## Scheduling Recommender (app.py lines 310-348) -/

/-- The risk score a record picks up in
`df.merge(risk_df[["aircraft_id","risk_score"]], on="aircraft_id", how="left")`:
a null merge key matches nothing, an unmatched row gets a null score. -/
def lookupRisk (t : List RiskEntry) (a : Option String) : Option ℚ :=
  match a with
  | none => none
  | some s => (t.find? (fun e => e.aircraft_id == s)).map RiskEntry.risk_score

/-- One row of `schedule_df`: the original record plus its (nullable)
joined risk score. -/
structure ScheduleRow where
  record : FlightRecord
  risk_score : Option ℚ
deriving DecidableEq, Inhabited

/-- `schedule_df`: the left merge of the filtered records with
`risk_df[["aircraft_id","risk_score"]]`. -/
def scheduleRows (l : List FlightRecord) : List ScheduleRow :=
  l.map (fun r => ⟨r, lookupRisk (riskTable l) r.aircraft_id⟩)

/-- `row["risk_score"] >= c` as pandas evaluates it inside `decision`:
comparing `NaN` with a number is `False`. -/
def riskAtLeast (x : Option ℚ) (c : ℚ) : Bool :=
  match x with
  | some v => decide (c ≤ v)
  | none => false

/-- The row-wise `decision` function of the source, verbatim: duty status
first, then flight status, then the two risk thresholds. -/
def decision (duty fstatus : String) (risk : Option ℚ) : String :=
  if duty ≠ "Available" then "Do Not Assign"
  else if fstatus ≠ "Fly" then "Do Not Assign"
  else if riskAtLeast risk 0.7 then "Avoid (High Risk)"
  else if riskAtLeast risk 0.4 then "Assign with Caution"
  else "Assign"

/-- `schedule_df.apply(decision, axis=1)` on one row. -/
def rowDecision (row : ScheduleRow) : String :=
  decision row.record.pilot_duty_status row.record.flight_status row.risk_score

/-- The recommendation column: one label per input record. -/
def recommendations (l : List FlightRecord) : List String :=
  (scheduleRows l).map rowDecision

/-- `schedule_df["recommendation"].value_counts()`: one (label, count)
pair per distinct label, ordered by descending count. -/
def recommendationCounts (l : List FlightRecord) : List (String × ℕ) :=
  List.mergeSort
    (((recommendations l).dedup).map
      (fun s => (s, ((recommendations l).filter (fun x => x == s)).length)))
    (fun x y => decide (y.2 ≤ x.2))

/-! ## Column-presence guards of the module top level -/

/-- The ten columns the spec's Schema Validator names. -/
def requiredColumns : List String :=
  ["flight_date", "aircraft_id", "pilot_id", "weather_condition", "flight_status",
   "flight_hours", "maintenance_flag", "downtime_days", "pilot_duty_status", "time_of_day"]

/-- Guard of the Aircraft Usage section:
`{"aircraft_id","flight_hours"}.issubset(df.columns)`. -/
def usageSectionRuns (cols : List String) : Bool :=
  cols.contains "aircraft_id" && cols.contains "flight_hours"

/-- Guard of the Training Peak Times section. -/
def timeSectionRuns (cols : List String) : Bool :=
  cols.contains "time_of_day" && cols.contains "flight_hours"

/-- Guard of the Weather Impact section. -/
def weatherSectionRuns (cols : List String) : Bool :=
  cols.contains "weather_condition" && cols.contains "flight_status"

/-- The `needed` set of the Maintenance Risk section. -/
def riskNeededCols : List String :=
  ["aircraft_id", "flight_hours", "maintenance_flag", "downtime_days"]

/-- Guard of the Maintenance Risk section: `needed.issubset(df.columns)`. -/
def riskSectionRuns (cols : List String) : Bool :=
  riskNeededCols.all (fun c => cols.contains c)

/-- `needed - set(df.columns)`: the missing-column set the risk section
shows in its warning. -/
def riskMissingCols (cols : List String) : List String :=
  riskNeededCols.filter (fun c => !cols.contains c)

/-- Guard of the Pilot Scheduling section: `risk_df is not None` (the risk
section ran) and its own four columns are present. -/
def schedSectionRuns (cols : List String) : Bool :=
  riskSectionRuns cols && cols.contains "pilot_id" && cols.contains "pilot_duty_status" &&
    cols.contains "aircraft_id" && cols.contains "flight_status"

/-- The three admissible values of the data model's `flight_status` enum
(Fly | Delayed | No-Fly). -/
def allowedStatuses : List String := ["Fly", "Delayed", "No-Fly"]

/-! ## Concrete inputs used to instantiate the theorems -/

/-- A baseline fully non-null record. -/
def baseRec : FlightRecord :=
  { flight_date := some 1, aircraft_id := some "A1", pilot_id := some "P1",
    weather_condition := some "Clear", flight_status := "Fly", flight_hours := 2,
    maintenance_flag := 0, downtime_days := 0, pilot_duty_status := "Available",
    time_of_day := "Morning" }

/-- A one-record data set with a single aircraft. -/
def demoOne : List FlightRecord := [baseRec]

/-- Two aircraft with identical total flight hours but different
maintenance counts and dates. -/
def demoTwo : List FlightRecord :=
  [baseRec,
   { baseRec with
      aircraft_id := some "A2", flight_date := some 2,
      maintenance_flag := 1, downtime_days := 3 }]

/-- Two records, the second with an unparseable (null) date. -/
def demoNullDate : List FlightRecord :=
  [baseRec, { baseRec with flight_date := none }]

/-- Two records of the same weather condition with different statuses. -/
def demoWeather : List FlightRecord :=
  [baseRec, { baseRec with flight_status := "Delayed" }]

/-- A single record whose aircraft id is null, so it is absent from the
per-aircraft risk table and its joined risk score is null. -/
def demoNullAircraft : List FlightRecord :=
  [{ baseRec with aircraft_id := none }]

/-- The column list of a file missing only `pilot_id`. -/
def colsWithoutPilotId : List String :=
  ["flight_date", "aircraft_id", "weather_condition", "flight_status",
   "flight_hours", "maintenance_flag", "downtime_days", "pilot_duty_status", "time_of_day"]

/-! ## Helper lemmas: series minimum and maximum -/

lemma foldl_min_le_init {α : Type*} [LinearOrder α] (xs : List α) (a : α) :
    xs.foldl min a ≤ a := by
  induction xs generalizing a with
  | nil => simp
  | cons x xs ih => exact le_trans (ih (min a x)) (min_le_left a x)

lemma foldl_min_le_mem {α : Type*} [LinearOrder α] {xs : List α} {x : α} (h : x ∈ xs)
    (a : α) : xs.foldl min a ≤ x := by
  induction xs generalizing a with
  | nil => cases h
  | cons y ys ih =>
    rcases List.mem_cons.mp h with rfl | hy
    · exact le_trans (foldl_min_le_init ys (min a x)) (min_le_right a x)
    · exact ih hy (min a y)

lemma init_le_foldl_max {α : Type*} [LinearOrder α] (xs : List α) (a : α) :
    a ≤ xs.foldl max a := by
  induction xs generalizing a with
  | nil => simp
  | cons x xs ih => exact le_trans (le_max_left a x) (ih (max a x))

lemma mem_le_foldl_max {α : Type*} [LinearOrder α] {xs : List α} {x : α} (h : x ∈ xs)
    (a : α) : x ≤ xs.foldl max a := by
  induction xs generalizing a with
  | nil => cases h
  | cons y ys ih =>
    rcases List.mem_cons.mp h with rfl | hy
    · exact le_trans (le_max_right a x) (init_le_foldl_max ys (max a x))
    · exact ih hy (max a y)

lemma seriesMin_le {s : List ℚ} {v : ℚ} (h : v ∈ s) : seriesMin s ≤ v := by
  cases s with
  | nil => cases h
  | cons x xs =>
    rcases List.mem_cons.mp h with rfl | hv
    · exact foldl_min_le_init xs v
    · exact foldl_min_le_mem hv x

lemma le_seriesMax {s : List ℚ} {v : ℚ} (h : v ∈ s) : v ≤ seriesMax s := by
  cases s with
  | nil => cases h
  | cons x xs =>
    rcases List.mem_cons.mp h with rfl | hv
    · exact init_le_foldl_max xs v
    · exact mem_le_foldl_max hv x

lemma seriesMin_le_seriesMax {s : List ℚ} (h : s ≠ []) : seriesMin s ≤ seriesMax s := by
  cases s with
  | nil => exact absurd rfl h
  | cons x xs =>
    exact le_trans (seriesMin_le (List.mem_cons_self x xs)) (le_seriesMax (List.mem_cons_self x xs))

/-! ## Helper lemmas: minmax_series -/

lemma length_minmax_series (s : List ℚ) : (minmax_series s).length = s.length := by
  unfold minmax_series
  split <;> simp

lemma minmax_series_mem {s : List ℚ} {x : ℚ} (h : x ∈ minmax_series s) : 0 ≤ x ∧ x ≤ 1 := by
  unfold minmax_series at h
  split at h
  · rcases List.eq_of_mem_replicate h with rfl
    norm_num
  · next hc =>
    obtain ⟨v, hv, rfl⟩ := List.mem_map.mp h
    have hne : s ≠ [] := List.ne_nil_of_mem hv
    have hnemm : seriesMax s ≠ seriesMin s := fun heq => hc ⟨heq, hne⟩
    have hlt : seriesMin s < seriesMax s :=
      lt_of_le_of_ne (seriesMin_le_seriesMax hne) (Ne.symm hnemm)
    constructor
    · exact div_nonneg (by linarith [seriesMin_le hv]) (by linarith)
    · rw [div_le_one (by linarith)]
      linarith [le_seriesMax hv]

lemma minmax_series_getD (s : List ℚ) (i : ℕ) (hi : i < s.length) :
    (seriesMax s = seriesMin s → (minmax_series s).getD i 0 = 0) ∧
    (seriesMax s ≠ seriesMin s →
      (minmax_series s).getD i 0 = (s.getD i 0 - seriesMin s) / (seriesMax s - seriesMin s)) := by
  have hne : s ≠ [] := by
    intro h; rw [h] at hi; simp at hi
  unfold minmax_series
  split
  · next hc =>
    refine ⟨fun _ => ?_, fun hnemm => absurd hc.1 hnemm⟩
    rw [List.getD_eq_getElem _ _ (by simpa using hi)]
    simp
  · next hc =>
    have hnemm : seriesMax s ≠ seriesMin s := fun heq => hc ⟨heq, hne⟩
    refine ⟨fun heq => absurd heq hnemm, fun _ => ?_⟩
    rw [List.getD_eq_getElem _ _ (by simpa using hi), List.getD_eq_getElem _ _ hi]
    simp

/-! ## Helper lemmas: rounding -/

lemma roundHalfEven_sub_le (q : ℚ) : |(roundHalfEven q : ℚ) - q| ≤ 1/2 := by
  have h0 : 0 ≤ Int.fract q := Int.fract_nonneg q
  have h1 : Int.fract q < 1 := Int.fract_lt_one q
  have hq : (⌊q⌋ : ℚ) = q - Int.fract q := by rw [Int.fract]; ring
  unfold roundHalfEven
  split
  · next hlt =>
    rw [abs_le]; constructor <;> rw [hq] <;> linarith
  · next hge =>
    have hge' : 1/2 ≤ Int.fract q := le_of_not_lt hge
    split
    · next hgt =>
      rw [abs_le]; constructor <;> push_cast <;> rw [hq] <;> linarith
    · next hngt =>
      have heq : Int.fract q = 1/2 := le_antisymm (le_of_not_lt hngt) hge'
      split
      · rw [abs_le]; constructor <;> rw [hq, heq] <;> linarith
      · rw [abs_le]; constructor <;> push_cast <;> rw [hq, heq] <;> linarith

lemma round2_bounds {x : ℚ} (h0 : 0 ≤ x) (h1 : x ≤ 1) : 0 ≤ round2 x ∧ round2 x ≤ 1 := by
  have h := roundHalfEven_sub_le (100 * x)
  rw [abs_le] at h
  have hl : (-1 : ℚ) < (roundHalfEven (100 * x) : ℚ) := by linarith [h.1]
  have hr : (roundHalfEven (100 * x) : ℚ) < 101 := by linarith [h.2]
  have hl' : (0 : ℤ) ≤ roundHalfEven (100 * x) := by
    have : (-1 : ℤ) < roundHalfEven (100 * x) := by exact_mod_cast hl
    omega
  have hr' : roundHalfEven (100 * x) ≤ 100 := by
    have : roundHalfEven (100 * x) < 101 := by exact_mod_cast hr
    omega
  unfold round2
  constructor
  · apply div_nonneg _ (by norm_num)
    exact_mod_cast hl'
  · rw [div_le_one (by norm_num)]
    exact_mod_cast hr'

lemma round2_zero : round2 0 = 0 := by
  have : Int.fract (100 * (0:ℚ)) = 0 := by norm_num
  unfold round2 roundHalfEven
  rw [this]
  norm_num

lemma round1_err (q : ℚ) : |round1 q - q| ≤ 1/20 := by
  have h := roundHalfEven_sub_le (10 * q)
  unfold round1
  have : (roundHalfEven (10 * q) : ℚ) / 10 - q = ((roundHalfEven (10 * q) : ℚ) - 10 * q) / 10 := by
    ring
  rw [this, abs_div]
  rw [abs_of_nonneg (by norm_num : (0:ℚ) ≤ 10)]
  linarith [abs_nonneg ((roundHalfEven (10 * q) : ℚ) - 10 * q)]

lemma sum_map_round1_err (ps : List ℚ) :
    |(ps.map round1).sum - ps.sum| ≤ (ps.length : ℚ) * (1/20) := by
  induction ps with
  | nil => simp
  | cons p ps ih =>
    simp only [List.map_cons, List.sum_cons, List.length_cons]
    have h1 := round1_err p
    have habs : |round1 p + (ps.map round1).sum - (p + ps.sum)| ≤
        |round1 p - p| + |(ps.map round1).sum - ps.sum| := by
      have : round1 p + (ps.map round1).sum - (p + ps.sum) =
          (round1 p - p) + ((ps.map round1).sum - ps.sum) := by ring
      rw [this]
      exact abs_add _ _
    have : ((ps.length + 1 : ℕ) : ℚ) * (1/20) = (ps.length : ℚ) * (1/20) + 1/20 := by
      push_cast; ring
    rw [this]
    linarith

lemma sum_map_round1_int (ps : List ℚ) : ∃ m : ℤ, (ps.map round1).sum = (m : ℚ) / 10 := by
  induction ps with
  | nil => exact ⟨0, by simp⟩
  | cons p ps ih =>
    obtain ⟨m, hm⟩ := ih
    refine ⟨roundHalfEven (10 * p) + m, ?_⟩
    simp only [List.map_cons, List.sum_cons, hm]
    unfold round1
    push_cast
    ring

lemma sum_round1_100 (ps : List ℚ) (hsum : ps.sum = 100) (hlen : ps.length ≤ 3) :
    |(ps.map round1).sum - 100| ≤ 1/10 := by
  obtain ⟨m, hm⟩ := sum_map_round1_int ps
  have he := sum_map_round1_err ps
  rw [hsum, hm] at he
  have hlen' : (ps.length : ℚ) ≤ 3 := by exact_mod_cast hlen
  have h3 : |(m : ℚ)/10 - 100| ≤ 3/20 := by
    refine le_trans he ?_
    have : (ps.length : ℚ) * (1/20) ≤ 3 * (1/20) := by
      apply mul_le_mul_of_nonneg_right hlen' (by norm_num)
    linarith
  rw [hm]
  rw [abs_le] at h3 ⊢
  have hub : (m : ℚ) < 1002 := by linarith [h3.2]
  have hlb : (998 : ℚ) < (m : ℚ) := by linarith [h3.1]
  have hub' : m ≤ 1001 := by
    have : m < 1002 := by exact_mod_cast hub
    omega
  have hlb' : 999 ≤ m := by
    have : 998 < m := by exact_mod_cast hlb
    omega
  have hub'' : (m : ℚ) ≤ 1001 := by exact_mod_cast hub'
  have hlb'' : (999 : ℚ) ≤ (m : ℚ) := by exact_mod_cast hlb'
  constructor <;> linarith

/-! ## Claim C1: the decision rule -/

/-- C1: the scheduling recommendation is decided by the five rules in this
exact priority order, the first match winning: non-Available duty status
gives "Do Not Assign"; else non-Fly flight status gives "Do Not Assign";
else a risk score at least 0.7 gives "Avoid (High Risk)"; else at least
0.4 gives "Assign with Caution"; else "Assign".  In particular
(Available, Fly, 0.75) yields "Avoid (High Risk)" and (Unavailable, Fly,
0.1) yields "Do Not Assign". -/
theorem claim1_decision_priority (duty fstatus : String) (v : ℚ) :
    (duty ≠ "Available" → ∀ risk, decision duty fstatus risk = "Do Not Assign") ∧
    (duty = "Available" → fstatus ≠ "Fly" → ∀ risk, decision duty fstatus risk = "Do Not Assign") ∧
    (duty = "Available" → fstatus = "Fly" → 0.7 ≤ v →
      decision duty fstatus (some v) = "Avoid (High Risk)") ∧
    (duty = "Available" → fstatus = "Fly" → v < 0.7 → 0.4 ≤ v →
      decision duty fstatus (some v) = "Assign with Caution") ∧
    (duty = "Available" → fstatus = "Fly" → v < 0.4 →
      decision duty fstatus (some v) = "Assign") ∧
    decision "Available" "Fly" (some 0.75) = "Avoid (High Risk)" ∧
    decision "Unavailable" "Fly" (some 0.1) = "Do Not Assign" := by
  refine ⟨?_, ?_, ?_, ?_, ?_, ?_, ?_⟩
  · intro h risk; simp [decision, h]
  · intro h1 h2 risk; simp [decision, h1, h2]
  · intro h1 h2 h3; simp [decision, h1, h2, riskAtLeast, h3]
  · intro h1 h2 h3 h4
    simp [decision, h1, h2, riskAtLeast, h4, not_le.mpr h3]
  · intro h1 h2 h3
    have h7 : v < 0.7 := lt_trans h3 (by norm_num)
    simp [decision, h1, h2, riskAtLeast, not_le.mpr h3, not_le.mpr h7]
  · norm_num [decision, riskAtLeast]
  · simp [decision]

/-- Witness for C1: the theorem applied at concrete inputs, one per rule
with a hypothesis. -/
theorem claim1_decision_priority_witness :
    decision "Resting" "Fly" (some 0.2) = "Do Not Assign" ∧
    decision "Available" "Delayed" (some 0.2) = "Do Not Assign" ∧
    decision "Available" "Fly" (some 0.5) = "Assign with Caution" ∧
    decision "Available" "Fly" (some 0.2) = "Assign" :=
  ⟨(claim1_decision_priority "Resting" "Fly" 0.2).1 (by decide) _,
   (claim1_decision_priority "Available" "Delayed" 0.2).2.1 rfl (by decide) _,
   (claim1_decision_priority "Available" "Fly" 0.5).2.2.2.1 rfl rfl (by norm_num) (by norm_num),
   (claim1_decision_priority "Available" "Fly" 0.2).2.2.2.2.1 rfl rfl (by norm_num)⟩

/-! ## Claim C10: a null joined risk score -/

/-- C10: for every schedule row whose joined risk score is null (for
example because its aircraft id is null and hence absent from the
per-aircraft risk table), if the pilot duty status is "Available" and the
flight status is "Fly" then both threshold comparisons evaluate false and
the decision is "Assign" — an unknown risk is classified with the
lowest-risk label. -/
theorem claim10_null_risk_lowest (l : List FlightRecord) :
    ∀ row ∈ scheduleRows l, row.risk_score = none →
      row.record.pilot_duty_status = "Available" → row.record.flight_status = "Fly" →
      riskAtLeast row.risk_score 0.7 = false ∧ riskAtLeast row.risk_score 0.4 = false ∧
        rowDecision row = "Assign" := by
  intro row _ hnone hduty hstat
  refine ⟨by rw [hnone]; rfl, by rw [hnone]; rfl, ?_⟩
  unfold rowDecision
  rw [hduty, hstat, hnone]
  simp [decision, riskAtLeast]

/-- Witness for C10: the single record of `demoNullAircraft` has a null
aircraft id, its joined risk score is null, and its decision is
"Assign". -/
theorem claim10_null_risk_lowest_witness :
    rowDecision ⟨{ baseRec with aircraft_id := none }, none⟩ = "Assign" := by
  have hmem : (⟨{ baseRec with aircraft_id := none }, none⟩ : ScheduleRow) ∈
      scheduleRows demoNullAircraft := by
    simp [scheduleRows, demoNullAircraft, lookupRisk]
  exact (claim10_null_risk_lowest demoNullAircraft _ hmem rfl rfl rfl).2.2

/-! ## Claim C5: empty filtered set -/

/-- C5: on an empty filtered record set every aggregation, the risk
scorer and the scheduling recommender return empty results (empty
tables, zero recommendation counts) rather than failing. -/
theorem claim5_empty_all_sections :
    usage_aircraft [] = [] ∧ usage_time [] = [] ∧ weather_status [] = [] ∧
    weather_pct [] = [] ∧ riskTable [] = [] ∧ scheduleRows [] = [] ∧
    recommendations [] = [] ∧ recommendationCounts [] = [] := by
  refine ⟨?_, ?_, ?_, ?_, ?_, ?_, ?_, ?_⟩ <;>
    simp [usage_aircraft, usage_time, weather_status, weather_pct, riskTable, riskTableRaw,
      scheduleRows, recommendations, recommendationCounts, groupKeys, aircraftKeys, riskAggs]

/-! ## Claim C3: column guards of the module top level -/

/-- Counterexample to C3: with `pilot_id` (a required column) missing,
the aircraft-usage, peak-times, weather and risk aggregations all still
run; the pipeline does not halt before aggregation, only the scheduling
section is skipped. -/
theorem claim3_counterexample :
    ("pilot_id" ∈ requiredColumns ∧ "pilot_id" ∉ colsWithoutPilotId) ∧
    usageSectionRuns colsWithoutPilotId = true ∧ timeSectionRuns colsWithoutPilotId = true ∧
    weatherSectionRuns colsWithoutPilotId = true ∧ riskSectionRuns colsWithoutPilotId = true ∧
    schedSectionRuns colsWithoutPilotId = false := by decide

/-- C3 as amended: the guards are per section, not global.  A section
whose own required columns are missing produces nothing (and the
scheduling section also needs the risk table), the risk section's
missing-column set is non-empty exactly then, and when all ten required
columns are present every section runs. -/
theorem claim3_per_section_guards (cols : List String) :
    (("aircraft_id" ∉ cols ∨ "flight_hours" ∉ cols) → usageSectionRuns cols = false) ∧
    (("time_of_day" ∉ cols ∨ "flight_hours" ∉ cols) → timeSectionRuns cols = false) ∧
    (("weather_condition" ∉ cols ∨ "flight_status" ∉ cols) → weatherSectionRuns cols = false) ∧
    ((∃ c ∈ riskNeededCols, c ∉ cols) → riskSectionRuns cols = false ∧ riskMissingCols cols ≠ []) ∧
    (riskSectionRuns cols = false → schedSectionRuns cols = false) ∧
    ((∀ c ∈ requiredColumns, c ∈ cols) →
      usageSectionRuns cols = true ∧ timeSectionRuns cols = true ∧
      weatherSectionRuns cols = true ∧ riskSectionRuns cols = true ∧
      schedSectionRuns cols = true) := by
  refine ⟨?_, ?_, ?_, ?_, ?_, ?_⟩
  · rintro (h | h) <;> simp [usageSectionRuns, h]
  · rintro (h | h) <;> simp [timeSectionRuns, h]
  · rintro (h | h) <;> simp [weatherSectionRuns, h]
  · rintro ⟨c, hc, hnc⟩
    constructor
    · fin_cases hc <;> simp [riskSectionRuns, riskNeededCols, hnc]
    · have hmem : c ∈ riskMissingCols cols := by
        rw [riskMissingCols, List.mem_filter]
        exact ⟨hc, by simp [hnc]⟩
      exact List.ne_nil_of_mem hmem
  · intro h; simp [schedSectionRuns, h]
  · intro h
    have h1 := h "aircraft_id" (by decide)
    have h2 := h "flight_hours" (by decide)
    have h3 := h "time_of_day" (by decide)
    have h4 := h "weather_condition" (by decide)
    have h5 := h "flight_status" (by decide)
    have h6 := h "maintenance_flag" (by decide)
    have h7 := h "downtime_days" (by decide)
    have h8 := h "pilot_id" (by decide)
    have h9 := h "pilot_duty_status" (by decide)
    refine ⟨?_, ?_, ?_, ?_, ?_⟩ <;>
      simp [usageSectionRuns, timeSectionRuns, weatherSectionRuns, riskSectionRuns,
        schedSectionRuns, riskNeededCols, h1, h2, h3, h4, h5, h6, h7, h8, h9]

/-- Witness for the amended C3: with exactly the ten required columns
loaded, every section runs. -/
theorem claim3_per_section_guards_witness :
    usageSectionRuns requiredColumns = true ∧ timeSectionRuns requiredColumns = true ∧
    weatherSectionRuns requiredColumns = true ∧ riskSectionRuns requiredColumns = true ∧
    schedSectionRuns requiredColumns = true :=
  (claim3_per_section_guards requiredColumns).2.2.2.2.2 (fun _ hc => hc)

/-! ## Claim C8: the filter engine is idempotent -/

lemma mem_of_mem_applyDateFilter {s e : ℕ} {l : List FlightRecord} {r : FlightRecord}
    (h : r ∈ applyDateFilter s e l) : r ∈ l := by
  unfold applyDateFilter at h
  split at h
  · exact (List.mem_filter.mp h).1
  · exact h

lemma mem_applyFilters_dateFilter {s e : ℕ} {A P W : List String} {l : List FlightRecord}
    {r : FlightRecord} (h : r ∈ applyFilters s e A P W l) : r ∈ applyDateFilter s e l := by
  unfold applyFilters applyWeatherFilter applyPilotFilter applyAircraftFilter at h
  simp only [List.mem_filter] at h
  exact h.1.1.1

lemma mem_applyFilters_sels {s e : ℕ} {A P W : List String} {l : List FlightRecord}
    {r : FlightRecord} (h : r ∈ applyFilters s e A P W l) :
    inSel A r.aircraft_id = true ∧ inSel P r.pilot_id = true ∧
      inSel W r.weather_condition = true := by
  unfold applyFilters applyWeatherFilter applyPilotFilter applyAircraftFilter at h
  simp only [List.mem_filter] at h
  exact ⟨h.1.1.2, h.1.2, h.2⟩

/-- C8: the filter engine is idempotent — for every record set and every
fixed filter selection (a date interval plus the three categorical value
subsets), applying the filter section to its own output returns exactly
the same record sequence. -/
theorem claim8_filter_idempotent (s e : ℕ) (A P W : List String) (l : List FlightRecord) :
    applyFilters s e A P W (applyFilters s e A P W l) = applyFilters s e A P W l := by
  have hD : applyDateFilter s e (applyFilters s e A P W l) = applyFilters s e A P W l := by
    by_cases hgl : l.any (fun r => r.flight_date.isSome) = true
    · -- the date filter was active on `l`, so all surviving records pass it
      have hall : ∀ r ∈ applyFilters s e A P W l, dateOk s e r = true := by
        intro r hr
        have hr' := mem_applyFilters_dateFilter hr
        unfold applyDateFilter at hr'
        rw [if_pos hgl] at hr'
        exact (List.mem_filter.mp hr').2
      unfold applyDateFilter
      split
      · exact List.filter_eq_self.mpr hall
      · rfl
    · -- no record of `l` has a date, hence none of the output does either
      have hnone : (applyFilters s e A P W l).any (fun r => r.flight_date.isSome) = false := by
        rw [Bool.eq_false_iff]
        intro hsome
        obtain ⟨r0, hr0, hr0s⟩ := List.any_eq_true.mp hsome
        have hl0 : r0 ∈ l := mem_of_mem_applyDateFilter (mem_applyFilters_dateFilter hr0)
        exact hgl (List.any_eq_true.mpr ⟨r0, hl0, hr0s⟩)
      unfold applyDateFilter
      rw [if_neg (by rw [hnone]; exact Bool.false_ne_true)]
  have hsels : ∀ r ∈ applyFilters s e A P W l,
      inSel A r.aircraft_id = true ∧ inSel P r.pilot_id = true ∧
        inSel W r.weather_condition = true :=
    fun _ hr => mem_applyFilters_sels hr
  conv_lhs => rw [applyFilters, hD]
  rw [show applyAircraftFilter A (applyFilters s e A P W l) = applyFilters s e A P W l from
    List.filter_eq_self.mpr (fun r hr => (hsels r hr).1)]
  rw [show applyPilotFilter P (applyFilters s e A P W l) = applyFilters s e A P W l from
    List.filter_eq_self.mpr (fun r hr => (hsels r hr).2.1)]
  exact List.filter_eq_self.mpr (fun r hr => (hsels r hr).2.2)

/-! ## Claim C4: filtered counts -/

lemma minDate_le {l : List FlightRecord} {d : ℕ} (h : d ∈ observedDates l) :
    minDate l ≤ d := by
  unfold minDate
  rcases hobs : observedDates l with _ | ⟨x, xs⟩
  · rw [hobs] at h; cases h
  · rw [hobs] at h
    rcases List.mem_cons.mp h with rfl | hv
    · exact foldl_min_le_init xs d
    · exact foldl_min_le_mem hv x

lemma le_maxDate {l : List FlightRecord} {d : ℕ} (h : d ∈ observedDates l) :
    d ≤ maxDate l := by
  unfold maxDate
  rcases hobs : observedDates l with _ | ⟨x, xs⟩
  · rw [hobs] at h; cases h
  · rw [hobs] at h
    rcases List.mem_cons.mp h with rfl | hv
    · exact init_le_foldl_max xs d
    · exact mem_le_foldl_max hv x

lemma length_applyDateFilter_le (s e : ℕ) (l : List FlightRecord) :
    (applyDateFilter s e l).length ≤ l.length := by
  unfold applyDateFilter
  split
  · exact List.length_filter_le _ _
  · exact le_refl _

lemma inSel_defaultChoices {f : FlightRecord → Option String} {l : List FlightRecord}
    {r : FlightRecord} (hr : r ∈ l) {a : String} (ha : f r = some a) :
    inSel (defaultChoices f l) (f r) = true := by
  rw [ha]
  unfold inSel defaultChoices
  have : a ∈ (l.filterMap f).dedup :=
    List.mem_dedup.mpr (List.mem_filterMap.mpr ⟨r, hr, ha⟩)
  exact List.elem_eq_true_of_mem this

/-- Counterexample to C4: in a two-record set whose second record has a
null (unparseable) date, the full-range default filter drops the
null-dated record, so the filtered count is 1 while the unfiltered count
is 2. -/
theorem claim4_counterexample :
    (fullDefaultFiltered demoNullDate).length = 1 ∧ demoNullDate.length = 2 ∧
    (fullDefaultFiltered demoNullDate).length ≠ demoNullDate.length := by decide

/-- C4 as amended: for every record set and filter selection the filtered
count is at most the unfiltered count; and the full-range default
selection returns the record set unchanged provided every record is
non-null on the four filtered dimensions (a record null on a filtered
dimension is dropped even by the default selection). -/
theorem claim4_filter_counts (l : List FlightRecord) :
    (∀ s e A P W, (applyFilters s e A P W l).length ≤ l.length) ∧
    ((∀ r ∈ l, r.flight_date.isSome = true ∧ r.aircraft_id.isSome = true ∧
        r.pilot_id.isSome = true ∧ r.weather_condition.isSome = true) →
      fullDefaultFiltered l = l) := by
  constructor
  · intro s e A P W
    unfold applyFilters applyWeatherFilter applyPilotFilter applyAircraftFilter
    exact le_trans (List.length_filter_le _ _) (le_trans (List.length_filter_le _ _)
      (le_trans (List.length_filter_le _ _) (length_applyDateFilter_le s e l)))
  · intro hnn
    have h1 : applyDateFilter (minDate l) (maxDate l) l = l := by
      unfold applyDateFilter
      split
      · refine List.filter_eq_self.mpr (fun r hr => ?_)
        obtain ⟨d, hd⟩ := Option.isSome_iff_exists.mp (hnn r hr).1
        have hdm : d ∈ observedDates l := List.mem_filterMap.mpr ⟨r, hr, hd⟩
        unfold dateOk
        rw [hd]
        simp [minDate_le hdm, le_maxDate hdm]
      · rfl
    have h2 : applyAircraftFilter (defaultChoices (fun r => r.aircraft_id) l) l = l := by
      refine List.filter_eq_self.mpr (fun r hr => ?_)
      obtain ⟨a, ha⟩ := Option.isSome_iff_exists.mp (hnn r hr).2.1
      exact inSel_defaultChoices hr ha
    have h3 : applyPilotFilter (defaultChoices (fun r => r.pilot_id) l) l = l := by
      refine List.filter_eq_self.mpr (fun r hr => ?_)
      obtain ⟨a, ha⟩ := Option.isSome_iff_exists.mp (hnn r hr).2.2.1
      exact inSel_defaultChoices hr ha
    have h4 : applyWeatherFilter (defaultChoices (fun r => r.weather_condition) l) l = l := by
      refine List.filter_eq_self.mpr (fun r hr => ?_)
      obtain ⟨a, ha⟩ := Option.isSome_iff_exists.mp (hnn r hr).2.2.2
      exact inSel_defaultChoices hr ha
    show fullDefaultFiltered l = l
    unfold fullDefaultFiltered
    simp only [h1, h2, h3, h4]

/-- Witness for the amended C4: on the all-non-null two-record set the
bound holds for a concrete selection and the full default selection is
the identity. -/
theorem claim4_filter_counts_witness :
    (applyFilters 0 5 ["A1"] ["P1"] ["Clear"] demoTwo).length ≤ demoTwo.length ∧
    fullDefaultFiltered demoTwo = demoTwo :=
  ⟨(claim4_filter_counts demoTwo).1 0 5 ["A1"] ["P1"] ["Clear"],
   (claim4_filter_counts demoTwo).2 (by decide)⟩

/-! ## Claim C6: the min-max normalization floor -/

/-- C6: for each of the three per-aircraft metrics independently, if every
aircraft shares the same value (the series maximum equals its minimum)
the normalized component is 0 at every position, regardless of the other
metrics; otherwise the component at position `i` is
`(value - min) / (max - min)`. -/
theorem claim6_minmax_components (l : List FlightRecord) (i : ℕ)
    (hi : i < (riskAggs l).length) :
    ((seriesMax ((riskAggs l).map RiskAgg.total_flight_hours) =
        seriesMin ((riskAggs l).map RiskAgg.total_flight_hours) →
      (hoursNorm l).getD i 0 = 0) ∧
     (seriesMax ((riskAggs l).map RiskAgg.total_flight_hours) ≠
        seriesMin ((riskAggs l).map RiskAgg.total_flight_hours) →
      (hoursNorm l).getD i 0 =
        (((riskAggs l).map RiskAgg.total_flight_hours).getD i 0 -
            seriesMin ((riskAggs l).map RiskAgg.total_flight_hours)) /
          (seriesMax ((riskAggs l).map RiskAgg.total_flight_hours) -
            seriesMin ((riskAggs l).map RiskAgg.total_flight_hours)))) ∧
    ((seriesMax ((riskAggs l).map RiskAgg.maintenance_events) =
        seriesMin ((riskAggs l).map RiskAgg.maintenance_events) →
      (maintNorm l).getD i 0 = 0) ∧
     (seriesMax ((riskAggs l).map RiskAgg.maintenance_events) ≠
        seriesMin ((riskAggs l).map RiskAgg.maintenance_events) →
      (maintNorm l).getD i 0 =
        (((riskAggs l).map RiskAgg.maintenance_events).getD i 0 -
            seriesMin ((riskAggs l).map RiskAgg.maintenance_events)) /
          (seriesMax ((riskAggs l).map RiskAgg.maintenance_events) -
            seriesMin ((riskAggs l).map RiskAgg.maintenance_events)))) ∧
    ((seriesMax ((riskAggs l).map RiskAgg.avg_downtime_days) =
        seriesMin ((riskAggs l).map RiskAgg.avg_downtime_days) →
      (downNorm l).getD i 0 = 0) ∧
     (seriesMax ((riskAggs l).map RiskAgg.avg_downtime_days) ≠
        seriesMin ((riskAggs l).map RiskAgg.avg_downtime_days) →
      (downNorm l).getD i 0 =
        (((riskAggs l).map RiskAgg.avg_downtime_days).getD i 0 -
            seriesMin ((riskAggs l).map RiskAgg.avg_downtime_days)) /
          (seriesMax ((riskAggs l).map RiskAgg.avg_downtime_days) -
            seriesMin ((riskAggs l).map RiskAgg.avg_downtime_days)))) := by
  refine ⟨?_, ?_, ?_⟩ <;>
    exact minmax_series_getD _ i (by simpa using hi)

/-- Witness for C6: in `demoTwo` both aircraft have total flight hours 2
while their maintenance counts differ, so both hours components are 0. -/
theorem claim6_minmax_components_witness :
    (hoursNorm demoTwo).getD 0 0 = 0 ∧ (hoursNorm demoTwo).getD 1 0 = 0 := by
  have hs : seriesMax ((riskAggs demoTwo).map RiskAgg.total_flight_hours) =
      seriesMin ((riskAggs demoTwo).map RiskAgg.total_flight_hours) := by
    simp [riskAggs, aircraftKeys, aggFor, groupRows, demoTwo, baseRec, seriesMax, seriesMin]
  have hlen : (riskAggs demoTwo).length = 2 := by
    simp [riskAggs, aircraftKeys, demoTwo, baseRec]
  exact ⟨(claim6_minmax_components demoTwo 0 (by rw [hlen]; norm_num)).1.1 hs,
         (claim6_minmax_components demoTwo 1 (by rw [hlen]; norm_num)).1.1 hs⟩

/-! ## Claim C2: the composite risk score -/

lemma length_hoursNorm (l : List FlightRecord) :
    (hoursNorm l).length = (riskAggs l).length := by
  unfold hoursNorm
  rw [length_minmax_series, List.length_map]

lemma length_maintNorm (l : List FlightRecord) :
    (maintNorm l).length = (riskAggs l).length := by
  unfold maintNorm
  rw [length_minmax_series, List.length_map]

lemma length_downNorm (l : List FlightRecord) :
    (downNorm l).length = (riskAggs l).length := by
  unfold downNorm
  rw [length_minmax_series, List.length_map]

lemma getD_mem_of_lt {s : List ℚ} {i : ℕ} (h : i < s.length) : s.getD i 0 ∈ s := by
  rw [List.getD_eq_getElem _ _ h]
  exact List.getElem_mem h

/-- C2: for a non-empty filtered record set, every risk-table entry's
score equals `round2` of the fixed convex combination
`0.5·hours + 0.3·maintenance + 0.2·downtime` of the normalized
components and lies in `[0, 1]`; and when exactly one distinct aircraft
id is present, all three normalized components are 0 and every entry's
score is 0. -/
theorem claim2_risk_score (l : List FlightRecord) (hne : l ≠ []) :
    (∀ e ∈ riskTable l, 0 ≤ e.risk_score ∧ e.risk_score ≤ 1) ∧
    (∀ i, i < (riskAggs l).length →
      ((riskTableRaw l).getD i default).risk_score =
        round2 (0.5 * (hoursNorm l).getD i 0 + 0.3 * (maintNorm l).getD i 0 +
          0.2 * (downNorm l).getD i 0)) ∧
    ((aircraftKeys l).length = 1 →
      (hoursNorm l = [0] ∧ maintNorm l = [0] ∧ downNorm l = [0]) ∧
      ∀ e ∈ riskTable l, e.risk_score = 0) := by
  have _ := hne
  refine ⟨?_, ?_, ?_⟩
  · intro e he
    have he' : e ∈ riskTableRaw l := List.mem_mergeSort.mp he
    obtain ⟨i, him, rfl⟩ := List.mem_map.mp he'
    have hi : i < (riskAggs l).length := List.mem_range.mp him
    have hh := minmax_series_mem (s := (riskAggs l).map RiskAgg.total_flight_hours)
      (getD_mem_of_lt (by rw [length_hoursNorm]; exact hi) :
        (hoursNorm l).getD i 0 ∈ hoursNorm l)
    have hm := minmax_series_mem (s := (riskAggs l).map RiskAgg.maintenance_events)
      (getD_mem_of_lt (by rw [length_maintNorm]; exact hi) :
        (maintNorm l).getD i 0 ∈ maintNorm l)
    have hd := minmax_series_mem (s := (riskAggs l).map RiskAgg.avg_downtime_days)
      (getD_mem_of_lt (by rw [length_downNorm]; exact hi) :
        (downNorm l).getD i 0 ∈ downNorm l)
    dsimp only
    exact round2_bounds (by linarith [hh.1, hm.1, hd.1]) (by linarith [hh.2, hm.2, hd.2])
  · intro i hi
    rw [List.getD_eq_getElem _ _ (by simp [riskTableRaw]; exact hi)]
    simp [riskTableRaw]
  · intro hk
    obtain ⟨a, ha⟩ := List.length_eq_one.mp hk
    have haggs : riskAggs l = [aggFor l a] := by
      unfold riskAggs
      rw [ha]
      rfl
    have hhn : hoursNorm l = [0] := by
      unfold hoursNorm
      rw [haggs]
      simp [minmax_series, seriesMax, seriesMin]
    have hmn : maintNorm l = [0] := by
      unfold maintNorm
      rw [haggs]
      simp [minmax_series, seriesMax, seriesMin]
    have hdn : downNorm l = [0] := by
      unfold downNorm
      rw [haggs]
      simp [minmax_series, seriesMax, seriesMin]
    refine ⟨⟨hhn, hmn, hdn⟩, ?_⟩
    intro e he
    have he' : e ∈ riskTableRaw l := List.mem_mergeSort.mp he
    obtain ⟨i, him, rfl⟩ := List.mem_map.mp he'
    have hi : i < (riskAggs l).length := List.mem_range.mp him
    rw [haggs] at hi
    have hi0 : i = 0 := Nat.lt_one_iff.mp (by simpa using hi)
    subst hi0
    dsimp only
    rw [hhn, hmn, hdn]
    norm_num [round2_zero]

/-- Witness for C2: `demoOne` has a single aircraft, so every normalized
component collapses to the zero floor. -/
theorem claim2_risk_score_witness :
    hoursNorm demoOne = [0] ∧ maintNorm demoOne = [0] ∧ downNorm demoOne = [0] :=
  ((claim2_risk_score demoOne (by decide)).2.2 (by decide)).1

/-! ## Claim C9: the left join neither drops nor duplicates -/

lemma map_aircraft_riskTableRaw (l : List FlightRecord) :
    (riskTableRaw l).map RiskEntry.aircraft_id = aircraftKeys l := by
  have hkeys : (riskAggs l).length = (aircraftKeys l).length := by
    unfold riskAggs
    rw [List.length_map]
  refine List.ext_getElem ?_ (fun i h1 h2 => ?_)
  · simp [riskTableRaw, hkeys]
  · simp only [riskTableRaw, List.getElem_map, List.getElem_range]
    have hi : i < (riskAggs l).length := by
      have hlen : (List.map RiskEntry.aircraft_id (riskTableRaw l)).length =
          (riskAggs l).length := by
        simp [riskTableRaw]
      rw [hlen] at h1
      exact h1
    rw [List.getD_eq_getElem _ _ hi]
    unfold riskAggs
    rw [List.getElem_map]
    rfl

/-- C9: the Scheduling Recommender produces exactly one recommendation
per input record: the risk table carries each aircraft id at most once,
the left join preserves the row count, row `i` of the join is record `i`
paired with the lookup of its aircraft id, a key absent from the risk
table (or null) joins to a null risk score instead of dropping the
row. -/
theorem claim9_join_shape (l : List FlightRecord) :
    ((riskTable l).map RiskEntry.aircraft_id).Nodup ∧
    (scheduleRows l).length = l.length ∧
    (recommendations l).length = l.length ∧
    (∀ i, i < l.length → (scheduleRows l).getD i default =
      ⟨l.getD i default, lookupRisk (riskTable l) ((l.getD i default).aircraft_id)⟩) ∧
    (∀ a : String, (∀ e ∈ riskTable l, e.aircraft_id ≠ a) →
      lookupRisk (riskTable l) (some a) = none) ∧
    lookupRisk (riskTable l) none = none := by
  refine ⟨?_, ?_, ?_, ?_, ?_, rfl⟩
  · have hperm : List.Perm ((riskTable l).map RiskEntry.aircraft_id)
        ((riskTableRaw l).map RiskEntry.aircraft_id) :=
      (List.mergeSort_perm (riskTableRaw l) _).map RiskEntry.aircraft_id
    rw [hperm.nodup_iff, map_aircraft_riskTableRaw]
    exact List.nodup_dedup _
  · simp [scheduleRows]
  · simp [recommendations, scheduleRows]
  · intro i hi
    rw [List.getD_eq_getElem _ _ (by simpa [scheduleRows] using hi),
      List.getD_eq_getElem _ _ hi]
    simp [scheduleRows]
  · intro a h
    have hfind : (riskTable l).find? (fun e => e.aircraft_id == a) = none :=
      List.find?_eq_none.mpr (fun e he => by simpa using h e he)
    show Option.map RiskEntry.risk_score ((riskTable l).find? (fun e => e.aircraft_id == a)) = none
    rw [hfind]
    rfl

/-- Witness for C9: row 0 of the join on `demoTwo` is record 0 with its
looked-up risk score. -/
theorem claim9_join_shape_witness :
    (scheduleRows demoTwo).getD 0 default =
      ⟨demoTwo.getD 0 default, lookupRisk (riskTable demoTwo) ((demoTwo.getD 0 default).aircraft_id)⟩ :=
  (claim9_join_shape demoTwo).2.2.2.1 0 (by decide)

/-! ## Claim C7: weather percentages -/

lemma mem_weather_pairs {l : List FlightRecord} {p : String × String}
    (hp : p ∈ (l.filterMap
      (fun r => r.weather_condition.map (fun w => (w, r.flight_status)))).dedup) :
    ∃ r ∈ l, r.weather_condition = some p.1 ∧ r.flight_status = p.2 := by
  obtain ⟨r, hr, hfr⟩ := List.mem_filterMap.mp (List.mem_dedup.mp hp)
  obtain ⟨w', hw', heq⟩ := Option.map_eq_some'.mp hfr
  refine ⟨r, hr, ?_, ?_⟩
  · rw [hw', ← heq]
  · rw [← heq]

lemma weather_status_count_pos (l : List FlightRecord) :
    ∀ row ∈ weather_status l, 0 < row.2.2 := by
  intro row hrow
  unfold weather_status at hrow
  obtain ⟨p, hp, rfl⟩ := List.mem_map.mp hrow
  obtain ⟨r, hr, hwc, hfs⟩ := mem_weather_pairs hp
  dsimp only
  apply List.length_pos.mpr
  apply List.ne_nil_of_mem (a := r)
  refine List.mem_filter.mpr ⟨hr, ?_⟩
  simp [hwc, hfs]

lemma sum_pct_eq_100 (rows : List (String × String × ℕ)) (T : ℕ)
    (hT : T = (rows.map (fun row => row.2.2)).sum) (hT0 : T ≠ 0) :
    (rows.map (fun row => (row.2.2 : ℚ) / (T : ℚ) * 100)).sum = 100 := by
  have h1 : rows.map (fun row => (row.2.2 : ℚ) / (T : ℚ) * 100) =
      rows.map (fun row => ((row.2.2 : ℕ) : ℚ) * ((100 : ℚ) / (T : ℚ))) :=
    List.map_congr_left (fun row _ => by ring)
  rw [h1, List.sum_map_mul_right]
  have h2 : (rows.map (fun row => ((row.2.2 : ℕ) : ℚ))).sum =
      (((rows.map (fun row => row.2.2)).sum : ℕ) : ℚ) := by
    rw [Nat.cast_list_sum, List.map_map]
    rfl
  rw [h2, ← hT]
  have hT0' : (T : ℚ) ≠ 0 := by exact_mod_cast hT0
  field_simp

/-- C7: in the weather-by-status cross-tabulation each row's percentage
is its count divided by the total count of its weather condition, times
100, rounded to one decimal; and — for records whose flight status stays
inside the data model's three-value enum — the rounded percentages of
each present weather condition sum to 100 within 1/10. -/
theorem claim7_weather_percentages (l : List FlightRecord)
    (hst : ∀ r ∈ l, r.flight_status ∈ allowedStatuses) :
    (∀ row ∈ weather_pct l,
      row.2.2.2 = round1 ((row.2.2.1 : ℚ) / (weatherTotal (weather_status l) row.1) * 100)) ∧
    (∀ w : String, (∃ row ∈ weather_status l, row.1 = w) →
      |(((weather_pct l).filter (fun row => row.1 == w)).map
          (fun row => row.2.2.2)).sum - 100| ≤ 1/10) := by
  constructor
  · intro row hrow
    simp only [weather_pct] at hrow
    obtain ⟨trow, _, rfl⟩ := List.mem_map.mp hrow
    rfl
  · intro w hw
    -- the cross-tabulation rows of weather condition `w`
    have h1 : (weather_pct l).filter (fun row => row.1 == w) =
        ((weather_status l).filter (fun row => row.1 == w)).map
          (fun row => (row.1, row.2.1, row.2.2,
            round1 ((row.2.2 : ℚ) / (weatherTotal (weather_status l) row.1) * 100))) := by
      simp only [weather_pct]
      rw [List.filter_map]
      rfl
    have h2 : (((weather_pct l).filter (fun row => row.1 == w)).map
          (fun row => row.2.2.2)) =
        ((weather_status l).filter (fun row => row.1 == w)).map
          (fun row => round1 ((row.2.2 : ℚ) / (weatherTotal (weather_status l) w) * 100)) := by
      rw [h1, List.map_map]
      refine List.map_congr_left (fun row hrow => ?_)
      have hw1 : row.1 = w := by simpa using (List.mem_filter.mp hrow).2
      simp [Function.comp, hw1]
    rw [h2]
    -- counts of the rows of `w` are positive and sum to the weather total
    have hposrow : ∀ row ∈ (weather_status l).filter (fun row => row.1 == w), 0 < row.2.2 :=
      fun row hrow => weather_status_count_pos l row (List.mem_filter.mp hrow).1
    have hrows_ne : (weather_status l).filter (fun row => row.1 == w) ≠ [] := by
      obtain ⟨row, hrow, hrw⟩ := hw
      exact List.ne_nil_of_mem (List.mem_filter.mpr ⟨hrow, by simp [hrw]⟩)
    have hTsum : weatherTotal (weather_status l) w =
        (((weather_status l).filter (fun row => row.1 == w)).map (fun row => row.2.2)).sum := rfl
    have hTpos : 0 < weatherTotal (weather_status l) w := by
      rw [hTsum]
      refine List.sum_pos _ (fun x hx => ?_) (by simpa using hrows_ne)
      obtain ⟨row, hrow, rfl⟩ := List.mem_map.mp hx
      exact hposrow row hrow
    -- rewrite as `round1` applied to a list of exact percentages
    have h3 : ((weather_status l).filter (fun row => row.1 == w)).map
          (fun row => round1 ((row.2.2 : ℚ) / (weatherTotal (weather_status l) w) * 100)) =
        (((weather_status l).filter (fun row => row.1 == w)).map
          (fun row => (row.2.2 : ℚ) / (weatherTotal (weather_status l) w) * 100)).map round1 := by
      rw [List.map_map]
      rfl
    rw [h3]
    -- the exact percentages sum to 100
    have hsum : (((weather_status l).filter (fun row => row.1 == w)).map
        (fun row => (row.2.2 : ℚ) / (weatherTotal (weather_status l) w) * 100)).sum = 100 :=
      sum_pct_eq_100 _ _ hTsum hTpos.ne'
    -- at most three statuses per weather condition
    have hlen : (((weather_status l).filter (fun row => row.1 == w)).map
        (fun row => (row.2.2 : ℚ) / (weatherTotal (weather_status l) w) * 100)).length ≤ 3 := by
      rw [List.length_map]
      have hrows : (weather_status l).filter (fun row => row.1 == w) =
          ((l.filterMap
            (fun r => r.weather_condition.map (fun w' => (w', r.flight_status)))).dedup.filter
              (fun p => p.1 == w)).map
            (fun p => (p.1, p.2, (l.filter
              (fun r => r.weather_condition == some p.1 && r.flight_status == p.2)).length)) := by
        unfold weather_status
        rw [List.filter_map]
        rfl
      rw [hrows, List.length_map]
      have hnd : ((l.filterMap
          (fun r => r.weather_condition.map (fun w' => (w', r.flight_status)))).dedup.filter
            (fun p => p.1 == w)).Nodup :=
        (List.nodup_dedup _).filter _
      have hsnd : (((l.filterMap
          (fun r => r.weather_condition.map (fun w' => (w', r.flight_status)))).dedup.filter
            (fun p => p.1 == w)).map (fun p => p.2)).Nodup := by
        refine List.Nodup.map_on (fun x hx y hy hxy => ?_) hnd
        have hx1 : x.1 = w := by simpa using (List.mem_filter.mp hx).2
        have hy1 : y.1 = w := by simpa using (List.mem_filter.mp hy).2
        exact Prod.ext (hx1.trans hy1.symm) hxy
      have hsub : (((l.filterMap
          (fun r => r.weather_condition.map (fun w' => (w', r.flight_status)))).dedup.filter
            (fun p => p.1 == w)).map (fun p => p.2)) ⊆ allowedStatuses := by
        intro s hs
        obtain ⟨p, hp, rfl⟩ := List.mem_map.mp hs
        obtain ⟨r, hr, _, hfs⟩ := mem_weather_pairs (List.mem_filter.mp hp).1
        rw [← hfs]
        exact hst r hr
      have hle := (List.subperm_of_subset hsnd hsub).length_le
      rw [List.length_map] at hle
      simpa [allowedStatuses] using hle
    exact sum_round1_100 _ hsum hlen

/-- Witness for C7: the two `demoWeather` records (one Fly, one Delayed,
both Clear) give rounded percentages summing to 100 within 1/10. -/
theorem claim7_weather_percentages_witness :
    |(((weather_pct demoWeather).filter (fun row => row.1 == "Clear")).map
        (fun row => row.2.2.2)).sum - 100| ≤ 1/10 :=
  (claim7_weather_percentages demoWeather (by decide)).2 "Clear" (by decide)
